import Mathlib

/-!
Verification of the komun-api multi-tenant budget core.

Shallow embedding of:
* the tenant schema resolver and scoped transaction executor
  (src/db/tenantDb.ts, here from part_016),
* the tenant provisioning service (tenantService.ts, part_001),
* the budget period / contribution engine and the quorum approval
  workflow (routes/dashboard.ts and the budget approval router, part_004).

Monetary amounts are `numeric(12,2)` columns in the database; every value
flowing through the budget code is an exact multiple of 0.01, so money is
modelled as an integer number of cents (`Money := Int`).  JavaScript
floating-point arithmetic on such values (sums, `×12`, `parseFloat` of the
column text) is exact at this scale, so the cents model is faithful.
-/

namespace Komun

/-! ## Errors -/

/-- Error taxonomy of the core (spec section 7). -/
inductive TenantError where
  | invalidTenantIdentifier
  | tenantAlreadyExists
  | provisioningFailed
  | dbError (msg : String)
deriving DecidableEq, Repr

/-! ## Tenant schema resolver (src/db/tenantDb.ts) -/

/-- Character class of the slug regex `[a-z0-9_-]`. -/
def isSlugChar (c : Char) : Bool :=
  ('a' ≤ c && c ≤ 'z') || ('0' ≤ c && c ≤ '9') || c = '_' || c = '-'

/-- Embedding of `tenantSchemaName` from tenantDb.ts:
`if (!slug || slug.length > MAX_SLUG_LENGTH || !SLUG_REGEX.test(slug)) throw`
with `MAX_SLUG_LENGTH = 64` and `SLUG_REGEX = /^[a-z0-9_-]+$/`;
otherwise it returns the template string with prefix tenant underscore. -/
def tenantSchemaName (slug : String) : Except TenantError String :=
  if slug.length = 0 || slug.length > 64 || !(slug.toList.all isSlugChar) then
    .error .invalidTenantIdentifier
  else
    .ok ("tenant_" ++ slug)

/-- Stated from the spec words (for comparison with the source function):
a slug is valid when it matches the regex with anchors, i.e. every character
is in the class and the string is non-empty, and its length is at most 64. -/
def slugMatchesPattern (s : String) : Bool :=
  1 ≤ s.length && s.length ≤ 64 && s.toList.all isSlugChar

/-! ## Scoped transaction executor (tenantDb in src/db/tenantDb.ts)

The callback `fn` is modelled by its observable behaviour inside the
transaction: the list of rows it wrote before finishing, and whether it
returned a value or threw.  The durable database is a list of rows; a commit
appends the transaction's writes, a rollback discards them.  The source has
no guard around the ROLLBACK query (`catch (err) { await
client.query("ROLLBACK"); throw err; }`), so a failing rollback is modelled
by the `rollbackFailure` parameter and its error replaces the original one.
The `finally` block always releases the connection. -/

/-- Observable behaviour of the callback passed to `tenantDb`. -/
inductive FnOutcome (α : Type) where
  | ok (val : α) (writes : List Nat)
  | fail (e : String) (writes : List Nat)
deriving Repr

/-- Result of one `tenantDb` call: the returned/raised value, the durable
rows afterwards, and how many pool connections were taken and given back. -/
structure TenantDbResult (α : Type) where
  result : Except TenantError α
  db : List Nat
  connectionsAcquired : Nat
  connectionsReleased : Nat
deriving Repr

/-- Embedding of `tenantDb(tenantSlug, fn)`:  resolve the schema name first
(propagating the invalid-slug error before any connection is taken), then
connect, BEGIN, SET LOCAL search_path, run `fn`, COMMIT on success or
ROLLBACK on failure, releasing the connection in all paths. -/
def tenantDb {α : Type} (tenantSlug : String) (fn : FnOutcome α)
    (rollbackFailure : Option String) (db : List Nat) : TenantDbResult α :=
  match tenantSchemaName tenantSlug with
  | .error e => ⟨.error e, db, 0, 0⟩
  | .ok _schemaName =>
    match fn with
    | .ok v writes => ⟨.ok v, db ++ writes, 1, 1⟩
    | .fail e _writes =>
      match rollbackFailure with
      | none => ⟨.error (.dbError e), db, 1, 1⟩
      | some e2 => ⟨.error (.dbError e2), db, 1, 1⟩

/-! ## Tenant-schema data model (src/db/schema/tenant.ts, part_017)

Timestamps are abstract instants (`Nat`); `new Date()` at a call site is the
`now` parameter of the embedded operation. -/

/-- Money in cents (`numeric(12,2)` columns). -/
abbrev Money := Int

/-- `fee_frequency` enum. -/
inductive Frequency where
  | monthly
  | yearly
deriving DecidableEq, Repr

/-- A `fee_templates` row (fields used by the budget engine). -/
structure FeeTemplate where
  amount : Money
  frequency : Frequency
  buildingId : Option Nat
deriving DecidableEq, Repr

/-- A `units` row (fields used by the budget engine). -/
structure PropertyUnit where
  id : Nat
  buildingId : Nat
  identifier : Option String
deriving DecidableEq, Repr

/-- `budget_status` enum. -/
inductive BudgetStatus where
  | draft
  | proposed
  | approved
  | closed
deriving DecidableEq, Repr

/-- A `budget_periods` row (fields used by the claims). -/
structure BudgetPeriod where
  id : Nat
  buildingId : Nat
  name : String
  year : Int
  openingBalance : Money
  status : BudgetStatus
  approvedAt : Option Nat
  sentForApprovalAt : Option Nat
deriving DecidableEq, Repr

/-- `budget_line_category` enum. -/
inductive LineCategory where
  | one_time
  | recurring
  | extras
deriving DecidableEq, Repr

/-- A `budget_lines` row. -/
structure BudgetLine where
  budgetPeriodId : Nat
  category : LineCategory
  description : String
  amount : Money
  sortOrder : Int
deriving DecidableEq, Repr

/-- A `budget_unit_contributions` row. -/
structure BudgetUnitContribution where
  budgetPeriodId : Nat
  unitId : Nat
  amount : Money
deriving DecidableEq, Repr

/-- A `budget_approvals` row. -/
structure BudgetApproval where
  id : Nat
  budgetPeriodId : Nat
  unitId : Nat
  token : String
  approvedAt : Option Nat
  rejectedAt : Option Nat
  rejectionReason : Option String
deriving DecidableEq, Repr

/-- A `building_financials` row. -/
structure BuildingFinancials where
  buildingId : Nat
  currentBalance : Money
deriving DecidableEq, Repr

/-- A `unit_members` row (fields used by notification dispatch). -/
structure UnitMember where
  unitId : Nat
  userId : Nat
deriving DecidableEq, Repr

/-- The tables of one tenant schema that the budget workflow touches. -/
structure TenantState where
  periods : List BudgetPeriod
  units : List PropertyUnit
  approvals : List BudgetApproval
  lines : List BudgetLine
  contributions : List BudgetUnitContribution
  feeTemplates : List FeeTemplate
  financials : List BuildingFinancials
  unitMembers : List UnitMember
deriving DecidableEq, Repr

/-! ## Query helpers shared by the route handlers -/

/-- First `budget_approvals` row with this period id and token (`limit 1`). -/
def findApproval (st : TenantState) (id : Nat) (token : String) :
    Option BudgetApproval :=
  st.approvals.find? (fun a => a.budgetPeriodId = id && a.token = token)

/-- First `budget_periods` row with this id (`limit 1` on the primary key). -/
def findPeriod (st : TenantState) (id : Nat) : Option BudgetPeriod :=
  st.periods.find? (fun p => p.id = id)

/-- All `units` rows of one building. -/
def unitsOfBuilding (st : TenantState) (bid : Nat) : List PropertyUnit :=
  st.units.filter (fun u => u.buildingId = bid)

/-- The SQL aggregate
`count(distinct unit_id) where budget_period_id = id and approved_at is not null`
recomputed by the approval endpoints. -/
def approvedUnitCount (st : TenantState) (id : Nat) : Nat :=
  ((st.approvals.filter
      (fun a => a.budgetPeriodId = id && a.approvedAt.isSome)).map
    (fun a => a.unitId)).dedup.length

/-- Embedding of `Math.ceil((2 / 3) * unitCount)`.  On IEEE doubles this
expression equals the exact rational ceiling for every unit count that fits
in well under 2^52, so it is embedded as the rational ceiling. -/
def requiredApprovalCount (unitCount : Nat) : Nat :=
  Nat.ceil ((2 : ℚ) / 3 * unitCount)

/-! ## Quorum approval workflow (budget approval router, part_004) -/

/-- Outcome of `POST /periods/:id/approve`. -/
inductive ApproveResult where
  | notFound
  | alreadyApproved
  | conflictAlreadyRejected
  | recorded (approvedUnitCount requiredApprovalCount unitCount : Nat)
      (quorumReached : Bool)
deriving DecidableEq, Repr

/-- The UPDATE stamping `approvedAt` on one `budget_approvals` row by id. -/
def setApprovedAt (st : TenantState) (aid now : Nat) : TenantState :=
  { st with
    approvals := st.approvals.map (fun a =>
      if a.id = aid then { a with approvedAt := some now } else a) }

/-- The units list the approve handler recomputes: the period's building's
units, or the empty list when the period row is gone. -/
def approvalUnitsList (st : TenantState) (id : Nat) : List PropertyUnit :=
  match findPeriod st id with
  | none => []
  | some p => unitsOfBuilding st p.buildingId

/-- The UPDATE setting one period to `approved` and stamping its
`approvedAt` (issued by the approve handler when the quorum is reached). -/
def markPeriodApproved (st : TenantState) (id now : Nat) : TenantState :=
  { st with
    periods := st.periods.map (fun p =>
      if p.id = id then { p with status := .approved, approvedAt := some now }
      else p) }

/-- Embedding of the approve-by-token handler: look the approval up by
(period id, token); early-return on a terminal row; otherwise stamp
`approvedAt`, recompute the quorum from a fresh distinct count, and when it
is reached update the period to `approved` stamping its `approvedAt`
(the source has no check that the period is not already approved). -/
def approveByToken (st : TenantState) (id : Nat) (token : String)
    (now : Nat) : ApproveResult × TenantState :=
  match findApproval st id token with
  | none => (.notFound, st)
  | some approval =>
    if approval.approvedAt.isSome then (.alreadyApproved, st)
    else if approval.rejectedAt.isSome then (.conflictAlreadyRejected, st)
    else
      let st1 := setApprovedAt st approval.id now
      let n := (approvalUnitsList st1 id).length
      let cnt := approvedUnitCount st1 id
      let required := requiredApprovalCount n
      (.recorded cnt required n (decide (required ≤ cnt)),
       if required ≤ cnt then markPeriodApproved st1 id now else st1)

/-- Outcome of `POST /periods/:id/reject`. -/
inductive RejectResult where
  | notFound
  | conflictAlreadyApproved
  | alreadyRejectedOk
  | recorded
deriving DecidableEq, Repr

/-- The UPDATE stamping `rejectedAt` and the rejection reason on one
`budget_approvals` row by id; an empty reason is stored as NULL
(`reason || null` in the source). -/
def setRejectedAt (st : TenantState) (aid now : Nat) (reasonCut : String) :
    TenantState :=
  { st with
    approvals := st.approvals.map (fun a =>
      if a.id = aid then
        { a with rejectedAt := some now,
                 rejectionReason :=
                   if reasonCut = "" then none else some reasonCut }
      else a) }

/-- Embedding of the reject-by-token handler: the reason is trimmed and
truncated to 2000 characters (`slice(0, 2000)`); terminal rows
early-return; otherwise only `rejectedAt`/`rejectionReason` of the found
row change. -/
def rejectByToken (st : TenantState) (id : Nat) (token reason : String)
    (now : Nat) : RejectResult × TenantState :=
  let reasonCut := reason.trim.take 2000
  match findApproval st id token with
  | none => (.notFound, st)
  | some approval =>
    if approval.approvedAt.isSome then (.conflictAlreadyApproved, st)
    else if approval.rejectedAt.isSome then (.alreadyRejectedOk, st)
    else
      (.recorded, setRejectedAt st approval.id now reasonCut)

/-- Quorum statistics of `GET /periods/:id/approve-info` and of the
dashboard period view: the recomputed distinct approved-unit count and the
required count derived from the building's current unit count. -/
def approvalStats (st : TenantState) (id : Nat) : Option (Nat × Nat) :=
  match findPeriod st id with
  | none => none
  | some p =>
    some (approvedUnitCount st id,
      requiredApprovalCount (unitsOfBuilding st p.buildingId).length)

/-! ## Budget period creation (POST /periods in routes/dashboard.ts) -/

/-- The applicable fee templates: scoped to this building OR
building-agnostic (`or(eq(feeTemplates.buildingId, bid), isNull(...))`). -/
def applicableTemplates (st : TenantState) (bid : Nat) : List FeeTemplate :=
  st.feeTemplates.filter (fun t => t.buildingId = some bid || t.buildingId = none)

/-- One template's yearly contribution: `frequency === "yearly" ? amt : amt * 12`. -/
def templateYearlyAmount (t : FeeTemplate) : Money :=
  match t.frequency with
  | .yearly => t.amount
  | .monthly => t.amount * 12

/-- The accumulation loop over the applicable templates. -/
def yearlyTotalPerUnit (st : TenantState) (bid : Nat) : Money :=
  (applicableTemplates st bid).foldl (fun acc t => acc + templateYearlyAmount t) 0

/-- One iteration of the carry-forward loop: skip the synthetic
"Unit contributions" line, otherwise append a copy with the running
sortOrder counter and bump it (`sortOrder: sortOrder++`). -/
def copyRecurringStep (pid : Nat) (acc : List BudgetLine × Nat)
    (l : BudgetLine) : List BudgetLine × Nat :=
  if l.description = "Unit contributions" then acc
  else
    (acc.1 ++ [{ budgetPeriodId := pid, category := .recurring,
                 description := l.description, amount := l.amount,
                 sortOrder := (acc.2 : Int) }],
     acc.2 + 1)

/-- The carry-forward loop over the prior period's recurring lines, with the
counter starting at 0. -/
def copiedRecurringLines (pid : Nat) (priorLines : List BudgetLine) :
    List BudgetLine :=
  (priorLines.foldl (copyRecurringStep pid) ([], 0)).1

/-- The `order by year desc limit 1` lookup of the most recent prior period
of the same building (`year < year` filter). -/
def previousPeriod (st : TenantState) (bid : Nat) (year : Int) :
    Option BudgetPeriod :=
  (st.periods.filter (fun p => p.buildingId = bid && p.year < year)).argmax
    (fun p => p.year)

/-- All recurring-category lines of one period. -/
def recurringLinesOf (st : TenantState) (pid : Nat) : List BudgetLine :=
  st.lines.filter
    (fun l => l.budgetPeriodId = pid && l.category = LineCategory.recurring)

/-- Embedding of `POST /periods`: snapshot the opening balance (inserting a
zero ledger row when missing), insert the draft period (`pid` is the id the
INSERT returns), insert one contribution row per unit with the uniform fee
total, insert the synthetic "Unit contributions" line with sortOrder -1,
then carry recurring lines forward from the most recent prior period. -/
def createBudgetPeriod (st : TenantState) (bid : Nat) (name : String)
    (year : Int) (pid : Nat) : TenantState × BudgetPeriod :=
  let fin := st.financials.find? (fun f => f.buildingId = bid)
  let openingBalance := match fin with | some f => f.currentBalance | none => 0
  let st0 :=
    match fin with
    | some _ => st
    | none => { st with financials := st.financials ++ [⟨bid, 0⟩] }
  let period : BudgetPeriod :=
    { id := pid, buildingId := bid, name := name, year := year,
      openingBalance := openingBalance, status := .draft,
      approvedAt := none, sentForApprovalAt := none }
  let buildingUnits := unitsOfBuilding st0 bid
  let perUnit := yearlyTotalPerUnit st0 bid
  let newContribs : List BudgetUnitContribution := buildingUnits.map (fun u =>
    { budgetPeriodId := pid, unitId := u.id, amount := perUnit })
  let syntheticLine : BudgetLine :=
    { budgetPeriodId := pid, category := .recurring,
      description := "Unit contributions",
      amount := perUnit * (buildingUnits.length : Int), sortOrder := -1 }
  let copied :=
    match previousPeriod st0 bid year with
    | none => []
    | some prev => copiedRecurringLines pid (recurringLinesOf st0 prev.id)
  ({ st0 with
      periods := st0.periods ++ [period],
      contributions := st0.contributions ++ newContribs,
      lines := st0.lines ++ [syntheticLine] ++ copied },
   period)

/-! ## Send for approval (POST /periods/:id/send-for-approval) -/

/-- The single runtime failure modelled on the notification path. -/
inductive JsError where
  | typeError
deriving DecidableEq, Repr

/-- A `public.users` row (fields used by recipient resolution). -/
structure PublicUser where
  id : Nat
  email : String
  name : String
deriving DecidableEq, Repr

/-- One dispatched `sendBudgetApprovalEmail` call. -/
structure ApprovalNotice where
  email : String
  unitId : Nat
  token : String
  sharePerUnit : String
deriving DecidableEq, Repr

/-- `Number.prototype.toFixed(2)` on an exact cents value. -/
def formatCents (m : Money) : String :=
  let sign := if m < 0 then "-" else ""
  let n := m.natAbs
  let r := n % 100
  sign ++ toString (n / 100) ++ "." ++
    (if r < 10 then "0" ++ toString r else toString r)

/-- `(total / unitCount).toFixed(2)` as a cents value: the quotient rounded
to the nearest cent, ties to the larger value (the toFixed rounding rule). -/
def jsDivToFixed2Cents (totalCents : Money) (n : Nat) : Money :=
  Int.floor ((totalCents : ℚ) / n + 1 / 2)

/-- A JavaScript value that is a number or a string.  The share computation
`(contributionByUnit[u.id] ?? sharePerUnitDefault).toFixed(2)` mixes the
two: the map holds numbers, the default is an already formatted string. -/
inductive JsVal where
  | num (cents : Money)
  | str (s : String)
deriving DecidableEq, Repr

/-- `v.toFixed(2)`: defined on numbers; on a string the method does not
exist, so the call raises a TypeError. -/
def jsToFixed2 : JsVal → Except JsError String
  | .num cents => .ok (formatCents cents)
  | .str _ => .error .typeError

/-- `Object.fromEntries` lookup (the last entry for a key wins). -/
def lastTokenForUnit (approvalRows : List BudgetApproval) (uid : Nat) :
    Option String :=
  (approvalRows.reverse.find? (fun a => a.unitId = uid)).map (fun a => a.token)

/-- `Object.fromEntries` lookup for the contribution map. -/
def lastContributionForUnit (contribs : List BudgetUnitContribution)
    (uid : Nat) : Option Money :=
  (contribs.reverse.find? (fun c => c.unitId = uid)).map (fun c => c.amount)

/-- The notification loop over the building's units: a unit without a token
is skipped; the unit's share is its contribution row's amount, falling back
to the pre-formatted flat default (a string, so `toFixed` on it raises); a
unit with no resolvable recipients is skipped silently; otherwise one email
per recipient is dispatched.  A raise aborts the remaining loop. -/
def dispatchNotices (pub : List PublicUser) (members : List UnitMember)
    (contribs : List BudgetUnitContribution) (sharePerUnitDefault : JsVal)
    (approvalRows : List BudgetApproval) :
    List PropertyUnit → Except JsError (List ApprovalNotice)
  | [] => .ok []
  | u :: rest =>
    match lastTokenForUnit approvalRows u.id with
    | none => dispatchNotices pub members contribs sharePerUnitDefault approvalRows rest
    | some tok =>
      let shareVal : JsVal :=
        match lastContributionForUnit contribs u.id with
        | some cents => .num cents
        | none => sharePerUnitDefault
      match jsToFixed2 shareVal with
      | .error e => .error e
      | .ok shareStr =>
        let userIds :=
          (members.filter (fun m => m.unitId = u.id)).map (fun m => m.userId)
        let recipients := pub.filter (fun r => userIds.contains r.id)
        let here := recipients.map (fun r =>
          { email := r.email, unitId := u.id, token := tok,
            sharePerUnit := shareStr : ApprovalNotice })
        match dispatchNotices pub members contribs sharePerUnitDefault approvalRows rest with
        | .error e => .error e
        | .ok more => .ok (here ++ more)

/-- Outcome of `POST /periods/:id/send-for-approval`. -/
inductive SendResult where
  | notFound
  | invalidState
  | sent (unitCount : Nat)
deriving DecidableEq, Repr

/-- Embedding of the send-for-approval handler: requires `draft` status;
inside the guarded block, generates one approval row per unit (token
`tokenGen i`, row ids from `startId`) and moves the period to `proposed`
stamping `sentForApprovalAt` — unless approval rows already exist, in which
case the block is skipped; then dispatches notifications from the re-read
approval rows. -/
def sendForApproval (st : TenantState) (pub : List PublicUser) (id : Nat)
    (tokenGen : Nat → String) (startId : Nat) (now : Nat) :
    SendResult × TenantState × Except JsError (List ApprovalNotice) :=
  match findPeriod st id with
  | none => (.notFound, st, .ok [])
  | some period =>
    if period.status ≠ BudgetStatus.draft then (.invalidState, st, .ok [])
    else
      let unitsList := unitsOfBuilding st period.buildingId
      let contribs := st.contributions.filter (fun c => c.budgetPeriodId = id)
      let linesList := st.lines.filter (fun l => l.budgetPeriodId = id)
      let total := (linesList.map (fun l => l.amount)).sum
      let sharePerUnitDefault : JsVal :=
        if unitsList.length ≠ 0 then
          .str (formatCents (jsDivToFixed2Cents total unitsList.length))
        else .str "0"
      let existing := st.approvals.filter (fun a => a.budgetPeriodId = id)
      let st1 :=
        if existing.length > 0 then st
        else
          { st with
            approvals := st.approvals ++
              unitsList.enum.map (fun iu =>
                { id := startId + iu.1, budgetPeriodId := id,
                  unitId := iu.2.id, token := tokenGen iu.1,
                  approvedAt := none, rejectedAt := none,
                  rejectionReason := none }),
            periods := st.periods.map (fun p =>
              if p.id = id then
                { p with status := .proposed, sentForApprovalAt := some now }
              else p) }
      let approvalRows := st1.approvals.filter (fun a => a.budgetPeriodId = id)
      (.sent unitsList.length, st1,
       dispatchNotices pub st1.unitMembers contribs sharePerUnitDefault
         approvalRows unitsList)

/-! ## Tenant provisioning (tenantService.ts, part_001) -/

/-- A `public.tenants` row. -/
structure Tenant where
  id : Nat
  slug : String
  name : String
deriving DecidableEq, Repr

/-- The shared public schema: tenant catalog, physical schema namespaces,
and memberships (tenantId, userId, role). -/
structure PublicState where
  tenants : List Tenant
  schemas : List String
  tenantUsers : List (Nat × Nat × String)
deriving DecidableEq, Repr

/-- Embedding of `createTenant`: resolve the schema name (propagating the
invalid-slug failure), then in one transaction insert the catalog row — a
duplicate slug raises the unique violation, rolling the transaction back —
and create the schema, commit; outside the transaction run the tenant
migrations (their success is the `migrationsOk` parameter) and insert the
`org_owner` membership. -/
def createTenant (ps : PublicState) (name slug : String) (ownerUserId : Nat)
    (newId : Nat) (migrationsOk : Bool) :
    Except TenantError Tenant × PublicState :=
  match tenantSchemaName slug with
  | .error e => (.error e, ps)
  | .ok schemaName =>
    if ps.tenants.any (fun t => t.slug = slug) then
      (.error .tenantAlreadyExists, ps)
    else
      let row : Tenant := { id := newId, slug := slug, name := name }
      let ps1 := { ps with tenants := ps.tenants ++ [row],
                           schemas := ps.schemas ++ [schemaName] }
      if migrationsOk then
        (.ok row,
         { ps1 with
            tenantUsers := ps1.tenantUsers ++ [(newId, ownerUserId, "org_owner")] })
      else (.error .provisioningFailed, ps1)

/-! ## Concrete states used by witnesses and counterexamples -/

/-- A one-building tenant with a proposed period, one already-approved and
one already-rejected approval row. -/
def stTerm : TenantState :=
  { periods := [{ id := 1, buildingId := 1, name := "B", year := 2025,
                  openingBalance := 0, status := .proposed, approvedAt := none,
                  sentForApprovalAt := some 0 }],
    units := [{ id := 1, buildingId := 1, identifier := none },
              { id := 2, buildingId := 1, identifier := none }],
    approvals := [{ id := 1, budgetPeriodId := 1, unitId := 1, token := "tA",
                    approvedAt := some 3, rejectedAt := none,
                    rejectionReason := none },
                  { id := 2, budgetPeriodId := 1, unitId := 2, token := "tR",
                    approvedAt := none, rejectedAt := some 4,
                    rejectionReason := some "no" }],
    lines := [], contributions := [], feeTemplates := [], financials := [],
    unitMembers := [] }

/-- A one-unit building with a proposed period and one pending approval:
the single approval reaches the quorum. -/
def stQuorum : TenantState :=
  { periods := [{ id := 1, buildingId := 1, name := "B", year := 2025,
                  openingBalance := 0, status := .proposed, approvedAt := none,
                  sentForApprovalAt := some 0 }],
    units := [{ id := 1, buildingId := 1, identifier := none }],
    approvals := [{ id := 1, budgetPeriodId := 1, unitId := 1, token := "t",
                    approvedAt := none, rejectedAt := none,
                    rejectionReason := none }],
    lines := [], contributions := [], feeTemplates := [], financials := [],
    unitMembers := [] }

/-- A three-unit building whose period is already `approved` (stamp 5, two
units approved, quorum 2 already met) with a third approval still pending. -/
def stRestamp : TenantState :=
  { periods := [{ id := 7, buildingId := 10, name := "B", year := 2025,
                  openingBalance := 0, status := .approved,
                  approvedAt := some 5, sentForApprovalAt := some 0 }],
    units := [{ id := 1, buildingId := 10, identifier := none },
              { id := 2, buildingId := 10, identifier := none },
              { id := 3, buildingId := 10, identifier := none }],
    approvals := [{ id := 1, budgetPeriodId := 7, unitId := 1, token := "t1",
                    approvedAt := some 1, rejectedAt := none,
                    rejectionReason := none },
                  { id := 2, budgetPeriodId := 7, unitId := 2, token := "t2",
                    approvedAt := some 2, rejectedAt := none,
                    rejectionReason := none },
                  { id := 3, budgetPeriodId := 7, unitId := 3, token := "t3",
                    approvedAt := none, rejectedAt := none,
                    rejectionReason := none }],
    lines := [], contributions := [], feeTemplates := [], financials := [],
    unitMembers := [] }

/-- A three-unit building with one building-scoped yearly fee template of
120.00 and one tenant-wide monthly template of 10.00 (amounts in cents). -/
def stBudget : TenantState :=
  { periods := [],
    units := [{ id := 1, buildingId := 1, identifier := none },
              { id := 2, buildingId := 1, identifier := none },
              { id := 3, buildingId := 1, identifier := none }],
    approvals := [],
    lines := [],
    contributions := [],
    feeTemplates := [{ amount := 12000, frequency := .yearly,
                       buildingId := some 1 },
                     { amount := 1000, frequency := .monthly,
                       buildingId := none }],
    financials := [],
    unitMembers := [] }

/-- A building with a 2025 period holding one recurring "Elevator
maintenance" line of 500.00, the synthetic "Unit contributions" line of
900.00, and a one-time line (amounts in cents). -/
def stCarry : TenantState :=
  { periods := [{ id := 5, buildingId := 1, name := "B25", year := 2025,
                  openingBalance := 0, status := .closed, approvedAt := none,
                  sentForApprovalAt := none }],
    units := [],
    approvals := [],
    lines := [{ budgetPeriodId := 5, category := .recurring,
                description := "Elevator maintenance", amount := 50000,
                sortOrder := 0 },
              { budgetPeriodId := 5, category := .recurring,
                description := "Unit contributions", amount := 90000,
                sortOrder := -1 },
              { budgetPeriodId := 5, category := .one_time,
                description := "Roof repair", amount := 100000,
                sortOrder := 1 }],
    contributions := [],
    feeTemplates := [],
    financials := [],
    unitMembers := [] }

/-- A two-unit building with a draft period and no approval rows yet. -/
def stSend : TenantState :=
  { periods := [{ id := 3, buildingId := 1, name := "B", year := 2026,
                  openingBalance := 0, status := .draft, approvedAt := none,
                  sentForApprovalAt := none }],
    units := [{ id := 1, buildingId := 1, identifier := none },
              { id := 2, buildingId := 1, identifier := none }],
    approvals := [],
    lines := [],
    contributions := [],
    feeTemplates := [],
    financials := [],
    unitMembers := [] }

/-- A draft period over a one-unit building with one 100.00 budget line,
a unit member, and NO contribution row for the unit — the notification
share computation must fall back to the flat default. -/
def stNotify : TenantState :=
  { periods := [{ id := 9, buildingId := 1, name := "B", year := 2026,
                  openingBalance := 0, status := .draft, approvedAt := none,
                  sentForApprovalAt := none }],
    units := [{ id := 5, buildingId := 1, identifier := some "A-1" }],
    approvals := [],
    lines := [{ budgetPeriodId := 9, category := .recurring,
                description := "X", amount := 10000, sortOrder := 0 }],
    contributions := [],
    feeTemplates := [],
    financials := [],
    unitMembers := [{ unitId := 5, userId := 2 }] }

/-- The same state with the unit's 240.00 contribution row present. -/
def stNotifyC : TenantState :=
  { stNotify with
      contributions := [{ budgetPeriodId := 9, unitId := 5, amount := 24000 }] }

/-- A catalog already holding the slug "acme". -/
def psDup : PublicState :=
  { tenants := [{ id := 1, slug := "acme", name := "Acme" }],
    schemas := ["tenant_acme"],
    tenantUsers := [(1, 4, "org_owner")] }

/-! ## Supporting lemmas -/

/-- The source guard `!slug || slug.length > 64 || !regex.test(slug)` accepts
exactly the strings matching the spec pattern. -/
lemma tenantSchemaName_eq_ite (s : String) :
    tenantSchemaName s =
      if slugMatchesPattern s then Except.ok ("tenant_" ++ s)
      else Except.error TenantError.invalidTenantIdentifier := by
  rcases Bool.eq_false_or_eq_true (s.toList.all isSlugChar) with h | h
  all_goals
    simp only [tenantSchemaName, slugMatchesPattern, h, Bool.not_true, Bool.not_false,
      Bool.or_true, Bool.or_false, Bool.and_true, Bool.and_false, Bool.true_and,
      Bool.false_and, if_true, if_false]
  all_goals
    first
    | rfl
    | (split_ifs with h1 h2 <;> simp_all; all_goals omega)

/-- Closed form of the quorum threshold: the rational ceiling computed by
the handlers is ceiling division on naturals. -/
lemma requiredApprovalCount_eq (n : ℕ) :
    requiredApprovalCount n = (2 * n + 2) / 3 := by
  unfold requiredApprovalCount
  rcases Nat.eq_zero_or_pos n with h | h
  · subst h; simp
  · have hm : (2 * n + 2) / 3 ≠ 0 := by omega
    rw [Nat.ceil_eq_iff hm]
    constructor
    · rw [div_mul_eq_mul_div, lt_div_iff₀ (by norm_num : (0:ℚ) < 3)]
      have hlt : ((2 * n + 2) / 3 - 1) * 3 < 2 * n := by omega
      exact_mod_cast hlt
    · rw [div_mul_eq_mul_div, div_le_iff₀ (by norm_num : (0:ℚ) < 3)]
      have hle : 2 * n ≤ ((2 * n + 2) / 3) * 3 := by omega
      exact_mod_cast hle

/-- Reduction of the approve handler on a pending approval row. -/
lemma approveByToken_pending (st : TenantState) (id : Nat) (token : String)
    (now : Nat) (a : BudgetApproval)
    (hfind : findApproval st id token = some a)
    (hA : a.approvedAt = none) (hR : a.rejectedAt = none) :
    approveByToken st id token now =
      (ApproveResult.recorded (approvedUnitCount (setApprovedAt st a.id now) id)
        (requiredApprovalCount (approvalUnitsList (setApprovedAt st a.id now) id).length)
        (approvalUnitsList (setApprovedAt st a.id now) id).length
        (decide (requiredApprovalCount
            (approvalUnitsList (setApprovedAt st a.id now) id).length
          ≤ approvedUnitCount (setApprovedAt st a.id now) id)),
       if requiredApprovalCount
            (approvalUnitsList (setApprovedAt st a.id now) id).length
          ≤ approvedUnitCount (setApprovedAt st a.id now) id
       then markPeriodApproved (setApprovedAt st a.id now) id now
       else setApprovedAt st a.id now) := by
  unfold approveByToken
  rw [hfind]
  simp [hA, hR]

/-- The quorum recount only reads the approvals table, which the period
UPDATE leaves untouched. -/
lemma approvedUnitCount_markPeriodApproved (st : TenantState)
    (id now pid : Nat) :
    approvedUnitCount (markPeriodApproved st id now) pid
      = approvedUnitCount st pid := rfl

/-- A row update that preserves the period id, the unit id and the approved
timestamp preserves the distinct approved-unit count. -/
lemma approvedUnitCount_map_preserve (st : TenantState) (pid : Nat)
    (f : BudgetApproval → BudgetApproval)
    (hf : ∀ a, (f a).budgetPeriodId = a.budgetPeriodId
      ∧ (f a).approvedAt = a.approvedAt ∧ (f a).unitId = a.unitId) :
    approvedUnitCount { st with approvals := st.approvals.map f } pid
      = approvedUnitCount st pid := by
  unfold approvedUnitCount
  simp only
  rw [List.filter_map f st.approvals, List.map_map]
  have hpred : ((fun a : BudgetApproval =>
      a.budgetPeriodId = pid && a.approvedAt.isSome) ∘ f)
      = fun a : BudgetApproval => a.budgetPeriodId = pid && a.approvedAt.isSome := by
    funext a
    simp [Function.comp, (hf a).1, (hf a).2.1]
  have hmap : ((fun a : BudgetApproval => a.unitId) ∘ f)
      = fun a : BudgetApproval => a.unitId := by
    funext a
    simp [Function.comp, (hf a).2.2]
  rw [hpred, hmap]

/-- The reject UPDATE preserves the distinct approved-unit count of every
period. -/
lemma approvedUnitCount_setRejectedAt (st : TenantState) (aid now : Nat)
    (rc : String) (pid : Nat) :
    approvedUnitCount (setRejectedAt st aid now rc) pid
      = approvedUnitCount st pid := by
  unfold setRejectedAt
  refine approvedUnitCount_map_preserve st pid _ ?_
  intro a
  by_cases h : a.id = aid <;> simp [h]

/-- The component of an enumFrom member is a member of the base list. -/
lemma snd_mem_of_mem_enumFrom {α : Type} {x : ℕ × α} {k : ℕ} {l : List α}
    (h : x ∈ List.enumFrom k l) : x.2 ∈ l := by
  induction l generalizing k with
  | nil => cases h
  | cons a as ih =>
    simp only [List.enumFrom, List.mem_cons] at h
    rcases h with rfl | h
    · exact List.mem_cons_self a as
    · exact List.mem_cons_of_mem a (ih h)

/-- The template accumulation loop computes the sum of the per-template
yearly amounts. -/
lemma yearlyTotalPerUnit_eq_sum (st : TenantState) (bid : Nat) :
    yearlyTotalPerUnit st bid
      = ((applicableTemplates st bid).map templateYearlyAmount).sum := by
  unfold yearlyTotalPerUnit
  have hgen : ∀ (l : List FeeTemplate) (init : Money),
      l.foldl (fun acc t => acc + templateYearlyAmount t) init
        = init + (l.map templateYearlyAmount).sum := by
    intro l
    induction l with
    | nil => intro init; simp
    | cons t ts ih => intro init; simp [ih, add_assoc]
  simpa using hgen (applicableTemplates st bid) 0

/-- The carry-forward loop, started from an arbitrary accumulator and
counter, appends one copy per non-synthetic line with consecutive
sortOrder values. -/
lemma copyRecurring_loop_eq (pid : Nat) (ls : List BudgetLine)
    (acc : List BudgetLine) (k : Nat) :
    (ls.foldl (copyRecurringStep pid) (acc, k)).1
      = acc ++ (List.enumFrom k (ls.filter
            (fun l => !(l.description = "Unit contributions")))).map
          (fun il => { budgetPeriodId := pid, category := .recurring,
                       description := il.2.description, amount := il.2.amount,
                       sortOrder := (il.1 : Int) }) := by
  induction ls generalizing acc k with
  | nil => simp
  | cons l ls ih =>
    by_cases h : l.description = "Unit contributions"
    · simp [copyRecurringStep, h, ih]
    · simp [copyRecurringStep, h, ih, List.enumFrom]

/-- Closed form of the carry-forward loop: the non-synthetic lines, each
copied with description and amount preserved and ascending sortOrder
starting at 0. -/
lemma copiedRecurringLines_eq (pid : Nat) (ls : List BudgetLine) :
    copiedRecurringLines pid ls
      = ((ls.filter (fun l => !(l.description = "Unit contributions"))).enum).map
          (fun il => { budgetPeriodId := pid, category := .recurring,
                       description := il.2.description, amount := il.2.amount,
                       sortOrder := (il.1 : Int) }) := by
  unfold copiedRecurringLines
  simpa using copyRecurring_loop_eq pid ls [] 0

/-- Every copied line belongs to the new period, is recurring, and is not
the synthetic line. -/
lemma mem_copiedRecurringLines (pid : Nat) (ls : List BudgetLine)
    (x : BudgetLine) (hx : x ∈ copiedRecurringLines pid ls) :
    x.budgetPeriodId = pid ∧ x.category = LineCategory.recurring
      ∧ ¬ x.description = "Unit contributions" := by
  rw [copiedRecurringLines_eq] at hx
  simp only [List.mem_map] at hx
  obtain ⟨il, hil, rfl⟩ := hx
  refine ⟨rfl, rfl, ?_⟩
  have h2 : il.2 ∈ ls.filter (fun l => !(l.description = "Unit contributions")) :=
    snd_mem_of_mem_enumFrom hil
  have h3 := List.of_mem_filter h2
  simpa using h3

/-- The contributions and lines a period-creation call appends. -/
lemma createBudgetPeriod_fields (st : TenantState) (bid : Nat)
    (name : String) (year : Int) (pid : Nat) :
    (createBudgetPeriod st bid name year pid).1.contributions
      = st.contributions ++ (unitsOfBuilding st bid).map (fun u =>
          { budgetPeriodId := pid, unitId := u.id,
            amount := yearlyTotalPerUnit st bid })
    ∧ (createBudgetPeriod st bid name year pid).1.lines
      = st.lines
        ++ [{ budgetPeriodId := pid, category := .recurring,
              description := "Unit contributions",
              amount := yearlyTotalPerUnit st bid
                * ((unitsOfBuilding st bid).length : Int),
              sortOrder := -1 }]
        ++ (match previousPeriod st bid year with
            | none => []
            | some prev => copiedRecurringLines pid (recurringLinesOf st prev.id)) := by
  unfold createBudgetPeriod
  cases hf : st.financials.find? (fun f => f.buildingId = bid) <;>
    exact ⟨rfl, rfl⟩

/-- An id-preserving row update commutes with the primary-key lookup. -/
lemma findPeriod_map_update (ps : List BudgetPeriod) (id : Nat)
    (f : BudgetPeriod → BudgetPeriod) (hid : ∀ q, (f q).id = q.id) :
    (ps.map f).find? (fun q => q.id = id)
      = (ps.find? (fun q => q.id = id)).map f := by
  rw [List.find?_map]
  have hcomp : ((fun q : BudgetPeriod => decide (q.id = id)) ∘ f)
      = fun q : BudgetPeriod => decide (q.id = id) := by
    funext q
    simp [Function.comp, hid q]
  rw [hcomp]

/-- The send handler on a period that is not in draft status: the
invalid-state failure, with the state untouched and no notification. -/
lemma sendForApproval_not_draft (st : TenantState) (pub : List PublicUser)
    (id : Nat) (tokenGen : Nat → String) (startId now : Nat)
    (p : BudgetPeriod) (hfind : findPeriod st id = some p)
    (hnd : p.status ≠ BudgetStatus.draft) :
    sendForApproval st pub id tokenGen startId now
      = (.invalidState, st, .ok []) := by
  unfold sendForApproval
  simp only [hfind]
  rw [if_pos hnd]

/-- The send handler on a draft period with no pre-existing approval rows:
the guarded block runs, inserting one approval row per unit and moving the
period to proposed with the sentForApprovalAt stamp. -/
lemma sendForApproval_draft_first (st : TenantState) (pub : List PublicUser)
    (id : Nat) (tokenGen : Nat → String) (startId now : Nat)
    (p : BudgetPeriod) (hfind : findPeriod st id = some p)
    (hdraft : p.status = BudgetStatus.draft)
    (hempty : st.approvals.filter (fun a => a.budgetPeriodId = id) = []) :
    (sendForApproval st pub id tokenGen startId now).2.1
      = { st with
          approvals := st.approvals ++
            (unitsOfBuilding st p.buildingId).enum.map (fun iu =>
              { id := startId + iu.1, budgetPeriodId := id,
                unitId := iu.2.id, token := tokenGen iu.1,
                approvedAt := none, rejectedAt := none,
                rejectionReason := none }),
          periods := st.periods.map (fun q =>
            if q.id = id then
              { q with status := .proposed, sentForApprovalAt := some now }
            else q) }
    ∧ (sendForApproval st pub id tokenGen startId now).1
      = .sent (unitsOfBuilding st p.buildingId).length := by
  unfold sendForApproval
  simp only [hfind, hdraft]
  rw [if_neg (by simp)]
  simp only [hempty, List.length_nil]
  rw [if_neg (by omega)]
  constructor <;> first | rfl | trivial

/-! ## Claim theorems -/

/-- C1: for every slug matching the pattern (characters a-z, 0-9,
underscore, hyphen; length 1 to 64) the resolver deterministically returns
the string tenant underscore slug, and for every other slug both the
resolver and the transaction executor fail with InvalidTenantIdentifier
while acquiring zero connections — before the slug reaches SQL identifier
position. -/
theorem resolveSchema_allowlist (s : String) :
    (tenantSchemaName s =
      if slugMatchesPattern s then Except.ok ("tenant_" ++ s)
      else Except.error TenantError.invalidTenantIdentifier)
    ∧ ∀ (fn : FnOutcome Nat) (rollbackFailure : Option String) (db : List Nat),
        slugMatchesPattern s = false →
          tenantDb s fn rollbackFailure db =
            ⟨Except.error TenantError.invalidTenantIdentifier, db, 0, 0⟩ := by
  refine ⟨tenantSchemaName_eq_ite s, ?_⟩
  intro fn rollbackFailure db hfalse
  unfold tenantDb
  rw [tenantSchemaName_eq_ite s, hfalse]
  simp

/-- C1 witness: a valid slug resolves to its schema name, and an invalid
slug makes the executor fail without touching the pool. -/
theorem resolveSchema_allowlist_witness :
    tenantSchemaName "acme" = Except.ok "tenant_acme"
    ∧ tenantDb "Bad slug!" (FnOutcome.ok 7 []) none [] =
        ⟨Except.error TenantError.invalidTenantIdentifier, [], 0, 0⟩ := by
  constructor
  · have h := (resolveSchema_allowlist "acme").1
    have h2 : slugMatchesPattern "acme" = true := by decide
    rw [h]
    simp [h2]
  · exact (resolveSchema_allowlist "Bad slug!").2 (FnOutcome.ok 7 []) none []
      (by decide)

/-- C2 counterexample: when the callback fails and the ROLLBACK query
itself fails, the executor re-raises the rollback failure, not the original
one — the source has no guard around the ROLLBACK (`catch (err) { await
client.query("ROLLBACK"); throw err; }`). -/
theorem tenantDb_rollback_masks_original :
    (tenantDb (α := Nat) "acme" (.fail "fn failed" [1])
        (some "rollback failed") []).result
      = .error (.dbError "rollback failed")
    ∧ (tenantDb (α := Nat) "acme" (.fail "fn failed" [1])
        (some "rollback failed") []).result
      ≠ .error (.dbError "fn failed") := by
  refine ⟨rfl, ?_⟩
  intro h
  rw [show (tenantDb (α := Nat) "acme" (.fail "fn failed" [1])
      (some "rollback failed") []).result
    = .error (.dbError "rollback failed") from rfl] at h
  simp only [Except.error.injEq, TenantError.dbError.injEq] at h
  exact absurd h (by decide)

/-- C2 (amended): for every valid slug, the executor commits and returns
the callback's value exactly when the callback succeeds; when the callback
fails after any number of writes, none of them is committed and the
connection is released — the original failure is re-raised when the
rollback succeeds, but a failure of the rollback itself replaces it (the
connection is still released and nothing is committed). -/
theorem tenantDb_transaction_semantics {α : Type} (slug : String) (v : α)
    (e e2 : String) (writes failWrites db : List Nat)
    (h : slugMatchesPattern slug = true) :
    tenantDb slug (.ok v writes) none db = ⟨.ok v, db ++ writes, 1, 1⟩
    ∧ tenantDb (α := α) slug (.fail e failWrites) none db
        = ⟨.error (.dbError e), db, 1, 1⟩
    ∧ tenantDb (α := α) slug (.fail e failWrites) (some e2) db
        = ⟨.error (.dbError e2), db, 1, 1⟩ := by
  have hok : tenantSchemaName slug = .ok ("tenant_" ++ slug) := by
    rw [tenantSchemaName_eq_ite slug, h]
    rfl
  refine ⟨?_, ?_, ?_⟩ <;> (unfold tenantDb; rw [hok])

/-- C2 (amended) witness at a concrete slug, value, and write lists. -/
theorem tenantDb_transaction_semantics_witness :
    tenantDb "acme" (.ok 5 [10, 11]) none [9] = ⟨.ok 5, [9, 10, 11], 1, 1⟩
    ∧ tenantDb (α := Nat) "acme" (.fail "boom" [10]) none [9]
        = ⟨.error (.dbError "boom"), [9], 1, 1⟩
    ∧ tenantDb (α := Nat) "acme" (.fail "boom" [10]) (some "rb") [9]
        = ⟨.error (.dbError "rb"), [9], 1, 1⟩ :=
  tenantDb_transaction_semantics "acme" 5 "boom" "rb" [10, 11] [10] [9]
    (by decide)

/-- C3: whenever the approve handler records a response, the returned
required count is the rational ceiling of two thirds of the returned unit
count and the returned approved count is the recomputed distinct
approved-unit count on the post-call state; the approval-info computation
reports the same two statistics; and the threshold is 7 for 10 units, 2 for
3 units, 1 for 1 unit. -/
theorem quorum_recount_and_threshold (st : TenantState) (id : Nat)
    (token : String) (now : Nat) :
    (∀ cnt req n q, (approveByToken st id token now).1 = .recorded cnt req n q →
        req = Nat.ceil ((2 : ℚ) / 3 * n)
        ∧ cnt = approvedUnitCount (approveByToken st id token now).2 id)
    ∧ (∀ p, findPeriod st id = some p →
        approvalStats st id =
          some (approvedUnitCount st id,
            requiredApprovalCount (unitsOfBuilding st p.buildingId).length))
    ∧ requiredApprovalCount 10 = 7
    ∧ requiredApprovalCount 3 = 2
    ∧ requiredApprovalCount 1 = 1 := by
  refine ⟨?_, ?_, ?_, ?_, ?_⟩
  · intro cnt req n q h
    rcases hfind : findApproval st id token with _ | a
    · simp [approveByToken, hfind] at h
    · by_cases hA : a.approvedAt.isSome
      · simp [approveByToken, hfind, hA] at h
      · by_cases hR : a.rejectedAt.isSome
        · simp [approveByToken, hfind, hA, hR] at h
        · have hred := approveByToken_pending st id token now a hfind
            (Option.not_isSome_iff_eq_none.mp hA)
            (Option.not_isSome_iff_eq_none.mp hR)
          rw [hred] at h ⊢
          simp only [ApproveResult.recorded.injEq] at h
          obtain ⟨hcnt, hreq, hn, _⟩ := h
          subst hcnt hreq hn
          refine ⟨rfl, ?_⟩
          by_cases hq : requiredApprovalCount
              (approvalUnitsList (setApprovedAt st a.id now) id).length
            ≤ approvedUnitCount (setApprovedAt st a.id now) id
          · rw [if_pos hq]
            rfl
          · rw [if_neg hq]
  · intro p hp
    unfold approvalStats
    rw [hp]
  · rw [requiredApprovalCount_eq]
  · rw [requiredApprovalCount_eq]
  · rw [requiredApprovalCount_eq]

/-- C3 witness: on the one-unit state the recorded response returns
required count 1 = ceiling of two thirds, approved count 1 equal to the
post-state recount, and the approval-info statistics agree. -/
theorem quorum_recount_and_threshold_witness :
    ((1 : Nat) = Nat.ceil ((2 : ℚ) / 3 * ((1 : Nat) : ℚ))
      ∧ (1 : Nat) = approvedUnitCount (approveByToken stQuorum 1 "t" 5).2 1)
    ∧ approvalStats stQuorum 1 =
        some (approvedUnitCount stQuorum 1,
          requiredApprovalCount (unitsOfBuilding stQuorum 1).length) := by
  have hrec : (approveByToken stQuorum 1 "t" 5).1 = .recorded 1 1 1 true := by
    have hred := approveByToken_pending stQuorum 1 "t" 5
      { id := 1, budgetPeriodId := 1, unitId := 1, token := "t",
        approvedAt := none, rejectedAt := none, rejectionReason := none }
      rfl rfl rfl
    rw [hred]
    simp only [requiredApprovalCount_eq]
    decide
  constructor
  · exact (quorum_recount_and_threshold stQuorum 1 "t" 5).1 1 1 1 true hrec
  · exact (quorum_recount_and_threshold stQuorum 1 "t" 5).2.1
      { id := 1, buildingId := 1, name := "B", year := 2025,
        openingBalance := 0, status := .proposed, approvedAt := none,
        sentForApprovalAt := some 0 } rfl

/-- C4: a response is terminal: approving an already-approved token
succeeds as an idempotent no-op with the state (timestamps and quorum
count) unchanged; approving an already-rejected token, or rejecting an
already-approved token, fails with the conflict response and also leaves
the state unchanged. -/
theorem approval_terminal_states (st : TenantState) (id : Nat)
    (token reason : String) (now : Nat) (a : BudgetApproval)
    (hfind : findApproval st id token = some a) :
    (a.approvedAt.isSome = true →
        approveByToken st id token now = (.alreadyApproved, st)
        ∧ rejectByToken st id token reason now = (.conflictAlreadyApproved, st))
    ∧ (a.approvedAt = none → a.rejectedAt.isSome = true →
        approveByToken st id token now = (.conflictAlreadyRejected, st)) := by
  constructor
  · intro hA
    constructor
    · unfold approveByToken
      rw [hfind]
      simp [hA]
    · unfold rejectByToken
      rw [hfind]
      simp [hA]
  · intro hA hR
    unfold approveByToken
    rw [hfind]
    simp [hA, hR]

/-- C4 witness: on the concrete state, re-approving the approved token is
an accepted no-op, while the two conflicting second responses fail and
change nothing. -/
theorem approval_terminal_states_witness :
    approveByToken stTerm 1 "tA" 9 = (.alreadyApproved, stTerm)
    ∧ rejectByToken stTerm 1 "tA" "why" 9 = (.conflictAlreadyApproved, stTerm)
    ∧ approveByToken stTerm 1 "tR" 9 = (.conflictAlreadyRejected, stTerm) := by
  have hA := approval_terminal_states stTerm 1 "tA" "why" 9
    { id := 1, budgetPeriodId := 1, unitId := 1, token := "tA",
      approvedAt := some 3, rejectedAt := none, rejectionReason := none } rfl
  have hB := approval_terminal_states stTerm 1 "tR" "why" 9
    { id := 2, budgetPeriodId := 1, unitId := 2, token := "tR",
      approvedAt := none, rejectedAt := some 4, rejectionReason := some "no" } rfl
  exact ⟨(hA.1 rfl).1, (hA.1 rfl).2, hB.2 rfl rfl⟩

/-- C5 counterexample: on a period already in status approved with
approvedAt stamp 5 (quorum 2 of 3 already met), approving the still-pending
third token re-runs the quorum update and re-stamps the period's approvedAt
to the new time 9: the approve handler has no check that the period is not
already approved, so the period's approvedAt is not set at most once. -/
theorem approve_restamps_approved_period :
    (findPeriod stRestamp 7).map (fun p => (p.status, p.approvedAt))
      = some (BudgetStatus.approved, some 5)
    ∧ (findPeriod (approveByToken stRestamp 7 "t3" 9).2 7).map
        (fun p => (p.status, p.approvedAt))
      = some (BudgetStatus.approved, some 9) := by
  refine ⟨rfl, ?_⟩
  have hred := approveByToken_pending stRestamp 7 "t3" 9
    { id := 3, budgetPeriodId := 7, unitId := 3, token := "t3",
      approvedAt := none, rejectedAt := none, rejectionReason := none }
    rfl rfl rfl
  rw [hred]
  simp only [requiredApprovalCount_eq]
  decide

/-- C5 (amended): approveByToken transitions the period to approved and
stamps the period's approvedAt with the current time whenever the recorded
response meets the quorum — regardless of whether the status is already
approved, so the stamp can be re-set by later approvals; when the quorum is
not met the periods table is untouched; rejectByToken never changes the
periods table nor any period's distinct approved-unit count. -/
theorem approve_reject_period_effects (st : TenantState) (id : Nat)
    (token reason : String) (now : Nat) :
    (∀ cnt req n q, (approveByToken st id token now).1 = .recorded cnt req n q →
        (req ≤ cnt →
          ∀ p ∈ (approveByToken st id token now).2.periods,
            p.id = id → p.status = .approved ∧ p.approvedAt = some now)
        ∧ (¬ req ≤ cnt →
            (approveByToken st id token now).2.periods = st.periods))
    ∧ (rejectByToken st id token reason now).2.periods = st.periods
    ∧ ∀ pid, approvedUnitCount (rejectByToken st id token reason now).2 pid
        = approvedUnitCount st pid := by
  refine ⟨?_, ?_, ?_⟩
  · intro cnt req n q h
    rcases hfind : findApproval st id token with _ | a
    · simp [approveByToken, hfind] at h
    · by_cases hA : a.approvedAt.isSome
      · simp [approveByToken, hfind, hA] at h
      · by_cases hR : a.rejectedAt.isSome
        · simp [approveByToken, hfind, hA, hR] at h
        · have hred := approveByToken_pending st id token now a hfind
            (Option.not_isSome_iff_eq_none.mp hA)
            (Option.not_isSome_iff_eq_none.mp hR)
          have h2 : (approveByToken st id token now).2
              = if requiredApprovalCount
                    (approvalUnitsList (setApprovedAt st a.id now) id).length
                  ≤ approvedUnitCount (setApprovedAt st a.id now) id
                then markPeriodApproved (setApprovedAt st a.id now) id now
                else setApprovedAt st a.id now := by rw [hred]
          rw [hred] at h
          simp only [ApproveResult.recorded.injEq] at h
          obtain ⟨hcnt, hreq, hn, _⟩ := h
          subst hcnt hreq
          constructor
          · intro hq p hp hpid
            rw [h2, if_pos hq] at hp
            unfold markPeriodApproved at hp
            simp only [List.mem_map] at hp
            obtain ⟨p0, hp0, hpeq⟩ := hp
            by_cases h0 : p0.id = id
            · rw [← hpeq]
              simp [h0]
            · rw [← hpeq] at hpid
              simp [h0] at hpid
          · intro hq
            rw [h2, if_neg hq]
            rfl
  · rcases hfind : findApproval st id token with _ | a
    · simp [rejectByToken, hfind]
    · by_cases hA : a.approvedAt.isSome
      · simp [rejectByToken, hfind, hA]
      · by_cases hR : a.rejectedAt.isSome
        · simp [rejectByToken, hfind, hA, hR]
        · simp [rejectByToken, hfind, hA, hR, setRejectedAt]
  · intro pid
    rcases hfind : findApproval st id token with _ | a
    · simp [rejectByToken, hfind]
    · by_cases hA : a.approvedAt.isSome
      · simp [rejectByToken, hfind, hA]
      · by_cases hR : a.rejectedAt.isSome
        · simp [rejectByToken, hfind, hA, hR]
        · have hrw : (rejectByToken st id token reason now).2
              = setRejectedAt st a.id now (reason.trim.take 2000) := by
            unfold rejectByToken
            rw [hfind]
            simp [hA, hR]
          rw [hrw]
          exact approvedUnitCount_setRejectedAt st a.id now
            (reason.trim.take 2000) pid

/-- C5 (amended) witness: on the one-unit state the single approval meets
the quorum and the period comes out approved with the fresh stamp; the
symmetric reject call leaves the periods and the quorum count unchanged. -/
theorem approve_reject_period_effects_witness :
    ((approveByToken stQuorum 1 "t" 5).1 = .recorded 1 1 1 true
      ∧ (⟨1, 1, "B", 2025, 0, .approved, some 5, some 0⟩ : BudgetPeriod)
          ∈ (approveByToken stQuorum 1 "t" 5).2.periods)
    ∧ ((⟨1, 1, "B", 2025, 0, .approved, some 5, some 0⟩ : BudgetPeriod).status
          = BudgetStatus.approved
      ∧ (⟨1, 1, "B", 2025, 0, .approved, some 5, some 0⟩ : BudgetPeriod).approvedAt
          = some 5)
    ∧ (rejectByToken stQuorum 1 "t" "why" 5).2.periods = stQuorum.periods
    ∧ approvedUnitCount (rejectByToken stQuorum 1 "t" "why" 5).2 1
        = approvedUnitCount stQuorum 1 := by
  have hred := approveByToken_pending stQuorum 1 "t" 5
    { id := 1, budgetPeriodId := 1, unitId := 1, token := "t",
      approvedAt := none, rejectedAt := none, rejectionReason := none }
    rfl rfl rfl
  have hrec : (approveByToken stQuorum 1 "t" 5).1 = .recorded 1 1 1 true := by
    rw [hred]
    simp only [requiredApprovalCount_eq]
    decide
  have hmem : (⟨1, 1, "B", 2025, 0, .approved, some 5, some 0⟩ : BudgetPeriod)
      ∈ (approveByToken stQuorum 1 "t" 5).2.periods := by
    rw [hred]
    simp only [requiredApprovalCount_eq]
    decide
  have hthm := approve_reject_period_effects stQuorum 1 "t" "why" 5
  exact ⟨⟨hrec, hmem⟩,
    (hthm.1 1 1 1 true hrec).1 (le_refl 1) _ hmem rfl,
    hthm.2.1, hthm.2.2 1⟩

/-- C6: creating a period inserts exactly one contribution row per unit of
the building, all with the same amount, namely the sum over templates
scoped to the building or building-agnostic of (amount if yearly, amount
times 12 if monthly); plus one synthetic recurring "Unit contributions"
line with sortOrder -1 whose amount is that per-unit total times the unit
count; with no applicable templates the per-unit total is 0 and the
synthetic line is still inserted (with amount 0). -/
theorem contributions_and_synthetic_line (st : TenantState) (bid : Nat)
    (name : String) (year : Int) (pid : Nat)
    (hfreshC : ∀ c ∈ st.contributions, c.budgetPeriodId ≠ pid)
    (hfreshL : ∀ l ∈ st.lines, l.budgetPeriodId ≠ pid) :
    ((createBudgetPeriod st bid name year pid).1.contributions.filter
        (fun c => c.budgetPeriodId = pid))
      = (unitsOfBuilding st bid).map (fun u =>
          { budgetPeriodId := pid, unitId := u.id,
            amount := yearlyTotalPerUnit st bid })
    ∧ yearlyTotalPerUnit st bid
        = ((applicableTemplates st bid).map templateYearlyAmount).sum
    ∧ ((createBudgetPeriod st bid name year pid).1.lines.filter
        (fun l => l.budgetPeriodId = pid
          && l.description = "Unit contributions"))
      = [{ budgetPeriodId := pid, category := .recurring,
           description := "Unit contributions",
           amount := yearlyTotalPerUnit st bid
             * ((unitsOfBuilding st bid).length : Int),
           sortOrder := -1 }]
    ∧ (applicableTemplates st bid = [] → yearlyTotalPerUnit st bid = 0) := by
  obtain ⟨hc, hl⟩ := createBudgetPeriod_fields st bid name year pid
  refine ⟨?_, yearlyTotalPerUnit_eq_sum st bid, ?_, ?_⟩
  · rw [hc, List.filter_append]
    have h1 : st.contributions.filter (fun c => c.budgetPeriodId = pid) = [] :=
      List.filter_eq_nil_iff.mpr (by
        intro c hcmem
        simpa using hfreshC c hcmem)
    have h2 : ((unitsOfBuilding st bid).map (fun u =>
        ({ budgetPeriodId := pid, unitId := u.id,
           amount := yearlyTotalPerUnit st bid } : BudgetUnitContribution))).filter
          (fun c => c.budgetPeriodId = pid)
        = (unitsOfBuilding st bid).map (fun u =>
            { budgetPeriodId := pid, unitId := u.id,
              amount := yearlyTotalPerUnit st bid }) :=
      List.filter_eq_self.mpr (by
        intro c hcmem
        simp only [List.mem_map] at hcmem
        obtain ⟨u, _, rfl⟩ := hcmem
        simp)
    rw [h1, h2, List.nil_append]
  · rw [hl, List.filter_append, List.filter_append]
    have h1 : st.lines.filter (fun l => l.budgetPeriodId = pid
        && l.description = "Unit contributions") = [] :=
      List.filter_eq_nil_iff.mpr (by
        intro l hlmem
        simp [hfreshL l hlmem])
    have h2 : List.filter (fun l => l.budgetPeriodId = pid
        && l.description = "Unit contributions")
        [({ budgetPeriodId := pid, category := .recurring,
            description := "Unit contributions",
            amount := yearlyTotalPerUnit st bid
              * ((unitsOfBuilding st bid).length : Int),
            sortOrder := -1 } : BudgetLine)]
        = [{ budgetPeriodId := pid, category := .recurring,
             description := "Unit contributions",
             amount := yearlyTotalPerUnit st bid
               * ((unitsOfBuilding st bid).length : Int),
             sortOrder := -1 }] := by
      simp
    have h3 : ∀ ls : List BudgetLine,
        (∀ x ∈ ls, ¬ x.description = "Unit contributions") →
        ls.filter (fun l => l.budgetPeriodId = pid
          && l.description = "Unit contributions") = [] := by
      intro ls hls
      refine List.filter_eq_nil_iff.mpr ?_
      intro l hlmem
      simp [hls l hlmem]
    have h4 : ((match previousPeriod st bid year with
        | none => ([] : List BudgetLine)
        | some prev => copiedRecurringLines pid
            (recurringLinesOf st prev.id) : List BudgetLine)).filter
          (fun l => l.budgetPeriodId = pid
            && l.description = "Unit contributions") = [] := by
      cases hprev : previousPeriod st bid year with
      | none => rfl
      | some prev =>
        exact h3 _ (fun x hx =>
          (mem_copiedRecurringLines pid (recurringLinesOf st prev.id) x hx).2.2)
    rw [h1, h2, h4, List.nil_append, List.append_nil]
  · intro h
    unfold yearlyTotalPerUnit
    rw [h]
    rfl

/-- C6 witness: three units, a yearly 120.00 building template and a
monthly 10.00 tenant-wide template give three contribution rows of 240.00
each and a synthetic line of 720.00 (cents). -/
theorem contributions_and_synthetic_line_witness :
    ((createBudgetPeriod stBudget 1 "Budget 2026" 2026 9).1.contributions.filter
        (fun c => c.budgetPeriodId = 9))
      = [{ budgetPeriodId := 9, unitId := 1, amount := 24000 },
         { budgetPeriodId := 9, unitId := 2, amount := 24000 },
         { budgetPeriodId := 9, unitId := 3, amount := 24000 }]
    ∧ ((createBudgetPeriod stBudget 1 "Budget 2026" 2026 9).1.lines.filter
        (fun l => l.budgetPeriodId = 9
          && l.description = "Unit contributions"))
      = [{ budgetPeriodId := 9, category := .recurring,
           description := "Unit contributions", amount := 72000,
           sortOrder := -1 }] := by
  have h := contributions_and_synthetic_line stBudget 1 "Budget 2026" 2026 9
    (by intro c hc; cases hc) (by intro l hl; cases hl)
  constructor
  · rw [h.1]
    decide
  · rw [h.2.2.1]
    decide

/-- C7: the new period's non-synthetic lines are exactly the recurring
lines of the most recent prior period of the building (highest year
strictly below the new year) minus the synthetic "Unit contributions"
line, copied with description and amount preserved and fresh ascending
sortOrder starting at 0; with no prior period nothing is copied. -/
theorem carry_forward_recurring (st : TenantState) (bid : Nat)
    (name : String) (year : Int) (pid : Nat)
    (hfreshL : ∀ l ∈ st.lines, l.budgetPeriodId ≠ pid) :
    (previousPeriod st bid year = none →
      (createBudgetPeriod st bid name year pid).1.lines.filter
          (fun l => l.budgetPeriodId = pid
            && !(l.description = "Unit contributions")) = [])
    ∧ (∀ prev, previousPeriod st bid year = some prev →
        ((createBudgetPeriod st bid name year pid).1.lines.filter
            (fun l => l.budgetPeriodId = pid
              && !(l.description = "Unit contributions")))
          = ((recurringLinesOf st prev.id).filter
                (fun l => !(l.description = "Unit contributions"))).enum.map
              (fun il => { budgetPeriodId := pid, category := .recurring,
                           description := il.2.description,
                           amount := il.2.amount, sortOrder := (il.1 : Int) })
        ∧ prev.buildingId = bid ∧ prev.year < year
        ∧ ∀ p ∈ st.periods, p.buildingId = bid → p.year < year →
            p.year ≤ prev.year) := by
  obtain ⟨_, hl⟩ := createBudgetPeriod_fields st bid name year pid
  have hbase : ∀ (tail : List BudgetLine),
      (st.lines
        ++ [({ budgetPeriodId := pid, category := .recurring,
               description := "Unit contributions",
               amount := yearlyTotalPerUnit st bid
                 * ((unitsOfBuilding st bid).length : Int),
               sortOrder := -1 } : BudgetLine)] ++ tail).filter
        (fun l => l.budgetPeriodId = pid
          && !(l.description = "Unit contributions"))
      = tail.filter (fun l => l.budgetPeriodId = pid
          && !(l.description = "Unit contributions")) := by
    intro tail
    rw [List.filter_append, List.filter_append]
    have h1 : st.lines.filter (fun l => l.budgetPeriodId = pid
        && !(l.description = "Unit contributions")) = [] :=
      List.filter_eq_nil_iff.mpr (by
        intro l hlmem
        simp [hfreshL l hlmem])
    have h2 : List.filter (fun l => l.budgetPeriodId = pid
        && !(l.description = "Unit contributions"))
        [({ budgetPeriodId := pid, category := .recurring,
            description := "Unit contributions",
            amount := yearlyTotalPerUnit st bid
              * ((unitsOfBuilding st bid).length : Int),
            sortOrder := -1 } : BudgetLine)] = [] := by
      simp
    rw [h1, h2, List.nil_append, List.nil_append]
  constructor
  · intro hprev
    rw [hl, hprev] at *
    rw [hbase []]
    rfl
  · intro prev hprev
    have hcopied : ((createBudgetPeriod st bid name year pid).1.lines.filter
        (fun l => l.budgetPeriodId = pid
          && !(l.description = "Unit contributions")))
        = copiedRecurringLines pid (recurringLinesOf st prev.id) := by
      rw [hl, hprev, hbase (copiedRecurringLines pid (recurringLinesOf st prev.id))]
      refine List.filter_eq_self.mpr ?_
      intro l hlmem
      obtain ⟨hpid, _, hdesc⟩ := mem_copiedRecurringLines pid
        (recurringLinesOf st prev.id) l hlmem
      simp [hpid, hdesc]
    have hmem : prev ∈ st.periods.filter
        (fun p => p.buildingId = bid && p.year < year) :=
      List.argmax_mem hprev
    have hmemf : prev.buildingId = bid ∧ prev.year < year := by
      simpa using List.of_mem_filter hmem
    refine ⟨?_, ?_, ?_, ?_⟩
    · rw [hcopied, copiedRecurringLines_eq]
    · exact hmemf.1
    · exact hmemf.2
    · intro p hp hpb hpy
      have hpmem : p ∈ st.periods.filter
          (fun pp => pp.buildingId = bid && pp.year < year) := by
        refine List.mem_filter.mpr ⟨hp, ?_⟩
        simp [hpb, hpy]
      exact List.le_of_mem_argmax hpmem hprev

/-- C7 witness: from a prior 2025 period with a recurring elevator line of
500.00, a synthetic contributions line and a one-time line, only the
elevator line is carried into the new period, amount preserved, sortOrder
0; on a building with no prior period nothing is copied. -/
theorem carry_forward_recurring_witness :
    ((createBudgetPeriod stCarry 1 "B26" 2026 9).1.lines.filter
        (fun l => l.budgetPeriodId = 9
          && !(l.description = "Unit contributions")))
      = [{ budgetPeriodId := 9, category := .recurring,
           description := "Elevator maintenance", amount := 50000,
           sortOrder := 0 }]
    ∧ ((createBudgetPeriod stBudget 1 "B26" 2026 9).1.lines.filter
        (fun l => l.budgetPeriodId = 9
          && !(l.description = "Unit contributions"))) = [] := by
  have h := carry_forward_recurring stCarry 1 "B26" 2026 9
    (by intro l hl; fin_cases hl <;> decide)
  have hprev : previousPeriod stCarry 1 2026
      = some { id := 5, buildingId := 1, name := "B25", year := 2025,
               openingBalance := 0, status := .closed, approvedAt := none,
               sentForApprovalAt := none } := by
    rfl
  have h2 := carry_forward_recurring stBudget 1 "B26" 2026 9
    (by intro l hl; cases hl)
  constructor
  · rw [(h.2 _ hprev).1]
    decide
  · exact h2.1 rfl

/-- C8: send-for-approval requires draft status and otherwise fails with
the invalid-state error touching nothing; the first call on a draft period
with no approval rows inserts exactly one approval row per unit of the
building, each with its generated token, and moves the period to proposed
stamping sentForApprovalAt; a second call then fails with the
invalid-state error, leaving the state — token count and
sentForApprovalAt included — unchanged and dispatching no notification. -/
theorem sendForApproval_generates_once (st : TenantState)
    (pub pub2 : List PublicUser) (id : Nat)
    (tokenGen tokenGen2 : Nat → String) (startId startId2 now now2 : Nat)
    (p : BudgetPeriod) (hfind : findPeriod st id = some p) :
    (p.status ≠ BudgetStatus.draft →
      sendForApproval st pub id tokenGen startId now
        = (.invalidState, st, .ok []))
    ∧ (p.status = BudgetStatus.draft →
      st.approvals.filter (fun a => a.budgetPeriodId = id) = [] →
      ((sendForApproval st pub id tokenGen startId now).2.1.approvals.filter
          (fun a => a.budgetPeriodId = id))
        = (unitsOfBuilding st p.buildingId).enum.map (fun iu =>
            { id := startId + iu.1, budgetPeriodId := id, unitId := iu.2.id,
              token := tokenGen iu.1, approvedAt := none, rejectedAt := none,
              rejectionReason := none })
      ∧ findPeriod (sendForApproval st pub id tokenGen startId now).2.1 id
          = some { p with status := .proposed, sentForApprovalAt := some now }
      ∧ sendForApproval (sendForApproval st pub id tokenGen startId now).2.1
            pub2 id tokenGen2 startId2 now2
          = (.invalidState,
             (sendForApproval st pub id tokenGen startId now).2.1, .ok [])) := by
  constructor
  · intro hnd
    exact sendForApproval_not_draft st pub id tokenGen startId now p hfind hnd
  · intro hdraft hempty
    obtain ⟨hstate, _⟩ := sendForApproval_draft_first st pub id tokenGen
      startId now p hfind hdraft hempty
    have hpid : p.id = id := by
      simpa using List.find?_some (p := fun q : BudgetPeriod => q.id = id)
        (by exact hfind)
    have hfind2 : findPeriod (sendForApproval st pub id tokenGen startId now).2.1 id
        = some { p with status := .proposed, sentForApprovalAt := some now } := by
      rw [hstate]
      show (st.periods.map _).find? _ = _
      rw [findPeriod_map_update st.periods id _ ?hid]
      case hid =>
        intro q
        by_cases hq : q.id = id <;> simp [hq]
      rw [show st.periods.find? (fun q => q.id = id) = some p from hfind]
      simp [hpid]
    refine ⟨?_, hfind2, ?_⟩
    · rw [hstate]
      show (st.approvals ++ _).filter _ = _
      rw [List.filter_append, hempty, List.nil_append]
      refine List.filter_eq_self.mpr ?_
      intro a ha
      simp only [List.mem_map] at ha
      obtain ⟨iu, _, rfl⟩ := ha
      simp
    · exact sendForApproval_not_draft _ pub2 id tokenGen2 startId2 now2
        { p with status := .proposed, sentForApprovalAt := some now }
        hfind2 (by simp)

/-- C8 witness: on the two-unit draft period, the first call inserts the
two tokened approval rows and proposes the period; the second call is the
invalid-state error with the state unchanged and no notification. -/
theorem sendForApproval_generates_once_witness :
    ((sendForApproval stSend [] 3 (fun i => toString i) 100 7).2.1.approvals.filter
        (fun a => a.budgetPeriodId = 3))
      = [{ id := 100, budgetPeriodId := 3, unitId := 1, token := "0",
           approvedAt := none, rejectedAt := none, rejectionReason := none },
         { id := 101, budgetPeriodId := 3, unitId := 2, token := "1",
           approvedAt := none, rejectedAt := none, rejectionReason := none }]
    ∧ findPeriod (sendForApproval stSend [] 3 (fun i => toString i) 100 7).2.1 3
        = some { id := 3, buildingId := 1, name := "B", year := 2026,
                 openingBalance := 0, status := .proposed, approvedAt := none,
                 sentForApprovalAt := some 7 }
    ∧ sendForApproval
          (sendForApproval stSend [] 3 (fun i => toString i) 100 7).2.1
          [] 3 (fun i => toString i) 200 8
        = (.invalidState,
           (sendForApproval stSend [] 3 (fun i => toString i) 100 7).2.1,
           .ok []) := by
  have h := (sendForApproval_generates_once stSend [] [] 3
    (fun i => toString i) (fun i => toString i) 100 200 7 8
    { id := 3, buildingId := 1, name := "B", year := 2026,
      openingBalance := 0, status := .draft, approvedAt := none,
      sentForApprovalAt := none } rfl).2 rfl rfl
  refine ⟨?_, h.2.1, h.2.2⟩
  rw [h.1]
  decide

/-- C9: when the slug's tenant row already exists, createTenant fails with
the duplicate-slug unique violation and the public state is unchanged: no
second tenant row and no schema is created (the catalog insert precedes
schema creation inside one transaction that rolls back on the failure). -/
theorem createTenant_duplicate_slug (ps : PublicState) (name slug : String)
    (ownerUserId newId : Nat) (migrationsOk : Bool)
    (hvalid : slugMatchesPattern slug = true)
    (hdup : ∃ t ∈ ps.tenants, t.slug = slug) :
    createTenant ps name slug ownerUserId newId migrationsOk
      = (.error .tenantAlreadyExists, ps) := by
  have hok : tenantSchemaName slug = .ok ("tenant_" ++ slug) := by
    rw [tenantSchemaName_eq_ite slug, hvalid]
    rfl
  unfold createTenant
  rw [hok]
  have hany : ps.tenants.any (fun t => t.slug = slug) = true := by
    obtain ⟨t, ht, hts⟩ := hdup
    exact List.any_eq_true.mpr ⟨t, ht, by simp [hts]⟩
  simp [hany]

/-- C9 witness: creating "acme" again on a catalog that already holds it
fails with the duplicate error and leaves the catalog untouched. -/
theorem createTenant_duplicate_slug_witness :
    createTenant psDup "Acme Again" "acme" 9 2 true
      = (.error .tenantAlreadyExists, psDup) :=
  createTenant_duplicate_slug psDup "Acme Again" "acme" 9 2 true
    (by decide)
    ⟨{ id := 1, slug := "acme", name := "Acme" }, by decide, rfl⟩

/-- C10: notification dispatch at the failing input.  For the unit with a
contribution row the dispatched share is that row's amount formatted to two
decimals; for a unit without one, the source computes
`(contributionByUnit[u.id] ?? sharePerUnitDefault).toFixed(2)` where the
default is already a formatted string, so the call raises a TypeError and
the dispatch aborts instead of sending the flat average share. -/
theorem share_fallback_is_type_error :
    (sendForApproval stNotify [{ id := 2, email := "r@x.io", name := "R" }] 9
        (fun _ => "tk") 50 7).2.2
      = .error .typeError
    ∧ (sendForApproval stNotifyC [{ id := 2, email := "r@x.io", name := "R" }] 9
        (fun _ => "tk") 50 7).2.2
      = .ok [{ email := "r@x.io", unitId := 5, token := "tk",
               sharePerUnit := "240.00" }] := by
  constructor
  · rfl
  · rfl

end Komun
